import Mathlib

/-!
Shallow embedding of the `servers` package (TCP server / connection layer)
of github.com/soupstoregames/go-core.

Bytes are modelled as `Nat` (values < 256 on the real wire), byte slices as
`List Nat`.  The `net.Conn` socket is modelled by explicit effect outputs:
each operation returns, besides the new connection state, the list of byte
sequences passed to `conn.Write`, the list of close hooks invoked, and flags
for the error-level log calls it made.  Fallible socket calls take the error
the socket would return as an explicit parameter (`Option Unit`: `some ()`
is an error, `none` is success).
-/

namespace GoCire

/-- Little-endian 16-bit decode, as `binary.LittleEndian.Uint16`:
`uint16(b[0]) | uint16(b[1])<<8`. -/
def uint16LE (b : List Nat) : Nat :=
  b.getD 0 0 + 256 * b.getD 1 0

/-- Little-endian 16-bit encode, as `binary.LittleEndian.PutUint16`:
`b[0] = byte(v); b[1] = byte(v >> 8)`. -/
def putUint16LE (v : Nat) : List Nat :=
  [v % 256, v / 256 % 256]

/-- Little-endian 32-bit encode, as `binary.LittleEndian.PutUint32`. -/
def putUint32LE (v : Nat) : List Nat :=
  [v % 256, v / 256 % 256, v / 65536 % 256, v / 16777216 % 256]

/-- State of a `TCPConnection`.  `updates` is the contents of the
`bytes.Buffer` field; `closeFunctions` is the registered close-hook list
(hooks identified by `Nat` ids); `socketReleased` records whether
`conn.Close()` has been called on the underlying socket. -/
structure TCPConnection where
  Closed : Bool
  updates : List Nat
  closeFunctions : List Nat
  socketReleased : Bool
deriving DecidableEq, Repr

/-- Result of `Close`: the new connection state, the hooks invoked by this
call in order, and the returned error. -/
structure CloseResult where
  conn : TCPConnection
  hooksRun : List Nat
  err : Option Unit
deriving DecidableEq, Repr

/-- Model of `TCPConnection.Close`.  `sockErr` is the error the underlying
`conn.Close()` would return.  If already closed it returns `nil`
immediately; otherwise it marks the connection closed, invokes every
registered hook in registration order, releases the socket and returns the
socket-release error. -/
def Close (c : TCPConnection) (sockErr : Option Unit) : CloseResult :=
  if c.Closed then
    ⟨c, [], none⟩
  else
    ⟨{ c with Closed := true, socketReleased := true }, c.closeFunctions, sockErr⟩

/-- Model of `TCPConnection.OnClose`: appends a hook to the list. -/
def OnClose (c : TCPConnection) (f : Nat) : TCPConnection :=
  { c with closeFunctions := c.closeFunctions ++ [f] }

/-- Result of `WriteMessage`: the byte sequences passed to `conn.Write`
and the returned error. -/
structure WriteMessageResult where
  wire : List (List Nat)
  err : Option Unit
deriving DecidableEq, Repr

/-- Model of `TCPConnection.WriteMessage`: passes `p` verbatim to
`conn.Write` (one write, no framing, no closed-flag check) and returns the
raw write error.  `wErr` is the error the socket write would return. -/
def WriteMessage (_c : TCPConnection) (p : List Nat) (wErr : Option Unit) :
    WriteMessageResult :=
  ⟨[p], wErr⟩

/-- Model of `TCPConnection.BufferUpdate`: `c.updates.Write(s)` appends `s`
to the update buffer.  No closed-flag check. -/
def BufferUpdate (c : TCPConnection) (s : List Nat) : TCPConnection :=
  { c with updates := c.updates ++ s }

/-- Result of `Flush`: the new connection state, the byte sequences passed
to `WriteMessage`, the byte sequences `WriteMessage` put on the wire via
`conn.Write`, the close hooks invoked, and whether the error-level
"Failed to write updates" log was emitted. -/
structure FlushResult where
  conn : TCPConnection
  msgs : List (List Nat)
  wire : List (List Nat)
  hooksRun : List Nat
  loggedErr : Bool
deriving DecidableEq, Repr

/-- Model of `TCPConnection.Flush`.  If the update buffer is empty it
returns at once.  Otherwise it builds `b` = 4-byte little-endian `tick`,
then appends the buffer contents, then appends a single `0` byte, and calls
`WriteMessage b`.  On write error: if the connection is closed it returns
early (the final `c.updates.Reset()` is skipped); otherwise it logs the
error, calls `Close` and then resets the buffer.  On write success it
resets the buffer.  `wErr` is the error the socket write would return and
`sockErr` the error `conn.Close()` would return inside `Close`. -/
def Flush (c : TCPConnection) (tick : Nat) (wErr sockErr : Option Unit) :
    FlushResult :=
  if c.updates = [] then
    ⟨c, [], [], [], false⟩
  else
    let b := putUint32LE tick ++ c.updates ++ [0]
    let w := WriteMessage c b wErr
    match w.err with
    | none => ⟨{ c with updates := [] }, [b], w.wire, [], false⟩
    | some _ =>
      if c.Closed then
        ⟨c, [b], w.wire, [], false⟩
      else
        let cr := Close c sockErr
        ⟨{ cr.conn with updates := [] }, [b], w.wire, cr.hooksRun, true⟩

/-- Model of one `bufio.Reader.Read` delivery into a zero-initialised
destination buffer of length `n` (`make([]byte, n)`): the delivered bytes
`d` occupy the front, the rest keeps its zero fill.  Faithful when
`d.length ≤ n`, which every real read satisfies. -/
def readFill (n : Nat) (d : List Nat) : List Nat :=
  (d ++ List.replicate n 0).take n

/-- Model of `TCPConnection.ReadMessage`.  The two socket reads are
parameters: `r1` is the outcome of the 2-byte length-prefix read, `r2` of
the body read (`Except.ok d` delivers bytes `d`, `Except.error ()` is a
read error).  Returns the result and the number of `Read` calls issued.
The code checks only the error of each read and ignores the byte count;
there is no read-until-full loop. -/
def ReadMessage (closed : Bool) (r1 r2 : Except Unit (List Nat)) :
    Except Unit (List Nat) × Nat :=
  match r1 with
  | .error e => (if closed then .ok [] else .error e, 1)
  | .ok d1 =>
    let n := uint16LE (readFill 2 d1)
    match r2 with
    | .error e => (.error e, 2)
    | .ok d2 => (.ok (readFill n d2), 2)

/-- Model of `ReadMessage` running over a byte stream `s` on which every
read fully delivers the requested bytes that are available (`s.take k`):
reads the 2-byte prefix, then reads the decoded number of body bytes. -/
def ReadMessageStream (closed : Bool) (s : List Nat) :
    Except Unit (List Nat) × Nat :=
  let d1 := s.take 2
  let rest := s.drop 2
  let n := uint16LE (readFill 2 d1)
  ReadMessage closed (.ok d1) (.ok (rest.take n))

/-- Writing `b` as one length-prefixed frame of the wire format: a 2-byte
little-endian length counting body bytes only, followed by the body. -/
def writeFrame (b : List Nat) : List Nat :=
  putUint16LE b.length ++ b

/-- Outcome of one iteration of the `Server.Start` accept loop. -/
inductive IterOutcome where
  | exitLoop
  | fault
  | deliver (connId : Nat)
deriving DecidableEq, Repr

/-- Result of the `Accept` call: a connection, a transient error, or the
closed-listener error (message containing
"use of closed network connection"). -/
inductive AcceptResult where
  | ok (connId : Nat)
  | transientErr
  | closedErr
deriving DecidableEq, Repr

/-- Outcome of one `Start` loop iteration together with whether
`logging.Error` was called. -/
structure StartIterResult where
  outcome : IterOutcome
  loggedError : Bool
deriving DecidableEq, Repr

/-- Model of one iteration of the `for` loop in `Server.Start`.  On an
accept error: a closed-listener error breaks the loop; a transient error is
logged and control falls through (there is no `continue`) with `conn = nil`,
so the subsequent `conn.Close()` or `conn.RemoteAddr()` call dereferences a
nil connection and the iteration faults.  On accept success: if `stopping`
the socket is closed and the loop breaks, otherwise the connection is
delivered on the channel. -/
def startIter (stopping : Bool) (r : AcceptResult) : StartIterResult :=
  if stopping then ⟨.exitLoop, false⟩
  else
    match r with
    | .closedErr => ⟨.exitLoop, false⟩
    | .transientErr =>
      if stopping then ⟨.fault, true⟩
      else ⟨.fault, true⟩
    | .ok cid =>
      if stopping then ⟨.exitLoop, false⟩
      else ⟨.deliver cid, false⟩

end GoCire

namespace GoCire

/-- Folding `BufferUpdate` over a list of chunks appends their
concatenation to the update buffer and changes nothing else. -/
theorem foldl_bufferUpdate (chunks : List (List Nat)) (c : TCPConnection) :
    chunks.foldl BufferUpdate c = { c with updates := c.updates ++ chunks.flatten } := by
  induction chunks generalizing c with
  | nil => simp
  | cons a t ih => simp [BufferUpdate, ih]

/-- C1: starting from an empty update buffer, after any sequence of
`BufferUpdate` calls whose bytes concatenate to a non-empty payload,
`Flush tick` passes to `WriteMessage` exactly one byte sequence: the 4
little-endian bytes of `tick`, then the buffered payload in order, then a
single trailing `0` byte; on write success the buffer is empty afterward. -/
theorem flush_frames_buffered_updates (c : TCPConnection) (chunks : List (List Nat))
    (tick : Nat) (sockErr : Option Unit)
    (h0 : c.updates = []) (hne : chunks.flatten ≠ []) :
    (Flush (chunks.foldl BufferUpdate c) tick none sockErr).msgs
        = [putUint32LE tick ++ chunks.flatten ++ [0]] ∧
    (Flush (chunks.foldl BufferUpdate c) tick none sockErr).conn.updates = [] := by
  rw [foldl_bufferUpdate, h0]
  simp [Flush, WriteMessage, hne]

/-- Witness for C1: two buffered chunks `[1]` and `[2]`, tick 7. -/
theorem flush_frames_buffered_updates_witness :
    (Flush (([[1],[2]] : List (List Nat)).foldl BufferUpdate ⟨false, [], [], false⟩) 7 none none).msgs
        = [putUint32LE 7 ++ ([[1],[2]] : List (List Nat)).flatten ++ [0]] ∧
    (Flush (([[1],[2]] : List (List Nat)).foldl BufferUpdate ⟨false, [], [], false⟩) 7 none none).conn.updates = [] :=
  flush_frames_buffered_updates ⟨false, [], [], false⟩ [[1],[2]] 7 none rfl (by decide)

/-- C2: for every body `b` of length at most 65535, writing `b` as a
length-prefixed frame and then running `ReadMessage` over the resulting
stream yields exactly `b` with no error. -/
theorem frame_roundtrip (closed : Bool) (b : List Nat) (h : b.length ≤ 65535) :
    (ReadMessageStream closed (writeFrame b)).1 = Except.ok b := by
  have htake : (writeFrame b).take 2 = putUint16LE b.length := rfl
  have hdrop : (writeFrame b).drop 2 = b := rfl
  have hdec : uint16LE (readFill 2 (putUint16LE b.length)) = b.length := by
    show b.length % 256 + 256 * (b.length / 256 % 256) = b.length
    omega
  show (ReadMessage closed (Except.ok ((writeFrame b).take 2))
      (Except.ok (((writeFrame b).drop 2).take
        (uint16LE (readFill 2 ((writeFrame b).take 2)))))).1 = Except.ok b
  rw [htake, hdrop, hdec, List.take_length]
  show Except.ok (readFill (uint16LE (readFill 2 (putUint16LE b.length))) b) = Except.ok b
  rw [hdec, readFill, List.take_append_of_le_length (Nat.le_refl _), List.take_length]

/-- Witness for C2: body `[9, 8, 7]`. -/
theorem frame_roundtrip_witness :
    (ReadMessageStream false (writeFrame [9, 8, 7])).1 = Except.ok [9, 8, 7] :=
  frame_roundtrip false [9, 8, 7] (by decide)


/-- Counterexample to C3: with buffer `[1, 2]` and tick 5, the single byte
sequence `Flush` puts on the wire is the tick-payload-terminator structure
itself, `[5, 0, 0, 0, 1, 2, 0]`, and it does not begin with the 2-byte
little-endian length of that structure (`[7, 0]`): no outer length prefix
is added. -/
theorem flush_no_length_prefix_cex :
    (Flush ⟨false, [1, 2], [], false⟩ 5 none none).wire
        = [putUint32LE 5 ++ [1, 2] ++ [0]] ∧
    (putUint32LE 5 ++ [1, 2] ++ [0]).take 2
        ≠ putUint16LE (putUint32LE 5 ++ [1, 2] ++ [0]).length := by decide

/-- C3 (amended): `Flush` passes the tick-payload-terminator structure to
`WriteMessage` unframed, and `WriteMessage` writes its argument verbatim, so
the bytes on the wire are exactly the tick-update structure with no 2-byte
length prefix: neither `Flush` nor `WriteMessage` performs outer framing. -/
theorem flush_writes_unframed (c : TCPConnection) (tick : Nat)
    (wErr sockErr : Option Unit) (p : List Nat) (h : c.updates ≠ []) :
    (Flush c tick wErr sockErr).wire = [putUint32LE tick ++ c.updates ++ [0]] ∧
    (Flush c tick wErr sockErr).msgs = (Flush c tick wErr sockErr).wire ∧
    (WriteMessage c p wErr).wire = [p] := by
  cases wErr with
  | none => simp [Flush, WriteMessage, h]
  | some e => cases hc : c.Closed <;> simp [Flush, WriteMessage, Close, h, hc]

/-- Witness for C3 (amended): buffer `[1, 2]`, tick 5, successful write. -/
theorem flush_writes_unframed_witness :
    (Flush ⟨false, [1, 2], [], false⟩ 5 none none).wire
        = [putUint32LE 5 ++ [1, 2] ++ [0]] ∧
    (Flush ⟨false, [1, 2], [], false⟩ 5 none none).msgs
        = (Flush ⟨false, [1, 2], [], false⟩ 5 none none).wire ∧
    (WriteMessage ⟨false, [1, 2], [], false⟩ [9] none).wire = [[9]] :=
  flush_writes_unframed ⟨false, [1, 2], [], false⟩ 5 none none [9] (by decide)

/-- Counterexample to C4: on a closed connection with non-empty buffer `[1]`,
a failed write makes `Flush` return early, so the buffer still holds `[1]`
and is not reset to empty. -/
theorem flush_closed_write_failure_keeps_buffer_cex :
    (⟨true, [1], [], true⟩ : TCPConnection).updates ≠ [] ∧
    (Flush ⟨true, [1], [], true⟩ 0 (some ()) none).conn.updates = [1] ∧
    (Flush ⟨true, [1], [], true⟩ 0 (some ()) none).conn.updates ≠ [] := by decide

/-- C4 (amended): for `Flush` on a non-empty buffer, the buffer is reset to
empty on write success and on write failure when the connection was not
closed; on write failure when the connection was already closed, `Flush`
returns early and the buffer is left unchanged (not reset). -/
theorem flush_buffer_reset_cases (c : TCPConnection) (tick : Nat)
    (sockErr : Option Unit) (h : c.updates ≠ []) :
    (Flush c tick none sockErr).conn.updates = [] ∧
    (c.Closed = false → (Flush c tick (some ()) sockErr).conn.updates = []) ∧
    (c.Closed = true → (Flush c tick (some ()) sockErr).conn.updates = c.updates) := by
  refine ⟨by simp [Flush, WriteMessage, h], ?_, ?_⟩ <;>
    intro hc <;> simp [Flush, WriteMessage, Close, h, hc]

/-- Witness for C4 (amended): open connection, buffer `[3]`. -/
theorem flush_buffer_reset_cases_witness :
    (Flush ⟨false, [3], [], false⟩ 1 none none).conn.updates = [] ∧
    ((⟨false, [3], [], false⟩ : TCPConnection).Closed = false →
      (Flush ⟨false, [3], [], false⟩ 1 (some ()) none).conn.updates = []) ∧
    ((⟨false, [3], [], false⟩ : TCPConnection).Closed = true →
      (Flush ⟨false, [3], [], false⟩ 1 (some ()) none).conn.updates
        = (⟨false, [3], [], false⟩ : TCPConnection).updates) :=
  flush_buffer_reset_cases ⟨false, [3], [], false⟩ 1 none (by decide)

/-- C5: with the listener not stopping, a transient accept error is logged
(`logging.Error` is called) but the iteration then faults instead of
continuing to the next accept: there is no `continue` after the log, so the
nil connection returned by the failed accept is dereferenced. -/
theorem start_transient_accept_error_faults :
    startIter false .transientErr = ⟨.fault, true⟩ := by decide

/-- C6: on an open connection, the first `Close` marks the connection
closed, runs every hook registered via `OnClose` exactly once in
registration order, releases the socket and returns the socket-release
error; any `Close` on an already-closed connection is a no-op returning no
error; and `OnClose` appends hooks in registration order. -/
theorem close_idempotent (c : TCPConnection) (e1 e2 : Option Unit)
    (h : c.Closed = false) :
    (Close c e1).conn.Closed = true ∧
    (Close c e1).conn.socketReleased = true ∧
    (Close c e1).hooksRun = c.closeFunctions ∧
    (Close c e1).err = e1 ∧
    (∀ c2 : TCPConnection, c2.Closed = true → Close c2 e2 = ⟨c2, [], none⟩) ∧
    (∀ (c3 : TCPConnection) (f : Nat),
      (OnClose c3 f).closeFunctions = c3.closeFunctions ++ [f]) := by
  refine ⟨?_, ?_, ?_, ?_, ?_, ?_⟩
  · simp [Close, h]
  · simp [Close, h]
  · simp [Close, h]
  · simp [Close, h]
  · intro c2 h2; simp [Close, h2]
  · intro c3 f; simp [OnClose]

/-- Witness for C6: open connection with hooks `[4, 5]`, socket-release
error on the first call. -/
theorem close_idempotent_witness :
    (Close ⟨false, [], [4, 5], false⟩ (some ())).conn.Closed = true ∧
    (Close ⟨false, [], [4, 5], false⟩ (some ())).conn.socketReleased = true ∧
    (Close ⟨false, [], [4, 5], false⟩ (some ())).hooksRun
        = (⟨false, [], [4, 5], false⟩ : TCPConnection).closeFunctions ∧
    (Close ⟨false, [], [4, 5], false⟩ (some ())).err = some () ∧
    (∀ c2 : TCPConnection, c2.Closed = true → Close c2 none = ⟨c2, [], none⟩) ∧
    (∀ (c3 : TCPConnection) (f : Nat),
      (OnClose c3 f).closeFunctions = c3.closeFunctions ++ [f]) :=
  close_idempotent ⟨false, [], [4, 5], false⟩ (some ()) none (by decide)

/-- C7: if the connection is marked closed and the length-prefix read
fails, `ReadMessage` returns an empty result with no error; a length-prefix
read failure while open is surfaced as an error; a body read failure is
surfaced as an error whatever the closed flag. -/
theorem readMessage_error_cases (d1 : List Nat) (r2 : Except Unit (List Nat)) :
    (ReadMessage true (.error ()) r2).1 = .ok [] ∧
    (ReadMessage false (.error ()) r2).1 = .error () ∧
    (∀ closed : Bool, (ReadMessage closed (.ok d1) (.error ())).1 = .error ()) :=
  ⟨rfl, rfl, fun _ => rfl⟩

/-- Counterexample to C8: `BufferUpdate` on a closed connection is not a
no-op: it appends to the update buffer, changing it from `[]` to `[1]`. -/
theorem bufferUpdate_on_closed_cex :
    (⟨true, [], [], true⟩ : TCPConnection).Closed = true ∧
    (BufferUpdate ⟨true, [], [], true⟩ [1]).updates
        ≠ (⟨true, [], [], true⟩ : TCPConnection).updates := by decide

/-- C8 (amended): the closed flag does not gate `WriteMessage`,
`BufferUpdate` or `Flush`: on a closed connection `BufferUpdate` still
appends to the update buffer, `WriteMessage` still passes the bytes to the
socket and returns the raw write error, and `Flush` on a non-empty buffer
still passes the framed update to `WriteMessage`; the only closed-state
handling is `Flush` swallowing a write failure. -/
theorem closed_state_does_not_gate_ops (c : TCPConnection) (s p : List Nat)
    (tick : Nat) (wErr sockErr : Option Unit) (h : c.Closed = true) :
    (BufferUpdate c s).updates = c.updates ++ s ∧
    (WriteMessage c p wErr).wire = [p] ∧
    (WriteMessage c p wErr).err = wErr ∧
    (c.updates ≠ [] →
      (Flush c tick wErr sockErr).msgs = [putUint32LE tick ++ c.updates ++ [0]]) := by
  refine ⟨by simp [BufferUpdate], rfl, rfl, fun hne => ?_⟩
  cases wErr with
  | none => simp [Flush, WriteMessage, hne]
  | some e => simp [Flush, WriteMessage, hne, h]

/-- Witness for C8 (amended): closed connection with buffer `[2]`. -/
theorem closed_state_does_not_gate_ops_witness :
    (BufferUpdate ⟨true, [2], [], true⟩ [1]).updates
        = (⟨true, [2], [], true⟩ : TCPConnection).updates ++ [1] ∧
    (WriteMessage ⟨true, [2], [], true⟩ [9] (some ())).wire = [[9]] ∧
    (WriteMessage ⟨true, [2], [], true⟩ [9] (some ())).err = some () ∧
    ((⟨true, [2], [], true⟩ : TCPConnection).updates ≠ [] →
      (Flush ⟨true, [2], [], true⟩ 3 (some ()) none).msgs
        = [putUint32LE 3 ++ (⟨true, [2], [], true⟩ : TCPConnection).updates ++ [0]]) :=
  closed_state_does_not_gate_ops ⟨true, [2], [], true⟩ [1] [9] 3 (some ()) none (by decide)

/-- C9: `Flush` on an empty update buffer does nothing: no write, no hooks,
no error log, and the connection state (buffer, closed flag, socket state,
hook list) is unchanged. -/
theorem flush_noop_on_empty_buffer (c : TCPConnection) (tick : Nat)
    (wErr sockErr : Option Unit) (h : c.updates = []) :
    Flush c tick wErr sockErr = ⟨c, [], [], [], false⟩ := by
  simp [Flush, h]

/-- Witness for C9: closed flag set, hooks registered, empty buffer. -/
theorem flush_noop_on_empty_buffer_witness :
    Flush ⟨false, [], [8], false⟩ 42 (some ()) none
        = ⟨⟨false, [], [8], false⟩, [], [], [], false⟩ :=
  flush_noop_on_empty_buffer ⟨false, [], [8], false⟩ 42 (some ()) none (by decide)

/-- C10: `ReadMessage` issues exactly one read for the 2-byte prefix and
exactly one read for the body (2 reads total, never a refill loop); when
the body read succeeds but delivers fewer bytes than the decoded prefix
value, the returned body is the delivered bytes followed by zero fill, and
its length still equals the prefix value. -/
theorem readMessage_no_refill_zero_pad (closed : Bool) (d1 d2 : List Nat)
    (h1 : d1.length = 2) (h2 : d2.length ≤ uint16LE d1) :
    ReadMessage closed (.ok d1) (.ok d2)
        = (.ok (d2 ++ List.replicate (uint16LE d1 - d2.length) 0), 2) ∧
    (d2 ++ List.replicate (uint16LE d1 - d2.length) 0).length = uint16LE d1 := by
  have hfill : readFill 2 d1 = d1 := by
    rw [readFill, ← h1, List.take_left]
  have hbody : readFill (uint16LE d1) d2
      = d2 ++ List.replicate (uint16LE d1 - d2.length) 0 := by
    rw [readFill, List.take_append_eq_append_take, List.take_replicate,
      Nat.min_eq_left (Nat.sub_le _ _), List.take_of_length_le h2]
  constructor
  · show (Except.ok (readFill (uint16LE (readFill 2 d1)) d2), 2) = _
    rw [hfill, hbody]
  · rw [List.length_append, List.length_replicate]
    omega

/-- Witness for C10: prefix decodes to 5, body read delivers only `[1, 2]`;
the result is `[1, 2, 0, 0, 0]` of length 5, after exactly 2 reads. -/
theorem readMessage_no_refill_zero_pad_witness :
    ReadMessage false (.ok [5, 0]) (.ok [1, 2])
        = (.ok ([1, 2] ++ List.replicate (uint16LE [5, 0] - [1, 2].length) 0), 2) ∧
    ([1, 2] ++ List.replicate (uint16LE [5, 0] - [1, 2].length) 0).length
        = uint16LE [5, 0] :=
  readMessage_no_refill_zero_pad false [5, 0] [1, 2] (by decide) (by decide)

end GoCire
